import Mathlib

/-!
Verification of the MCP interactive HTTP client (`src/http_client.py`).

The Python source is shallowly embedded: console and logging effects become
explicit event lists, operator input becomes a list of strings consumed one
line per `input()` call, exceptions become an explicit `exn` result, and the
external collaborators (the two transport context managers, the protocol
`ClientSession`, `float`/`json` primitive parsers and `json.dumps`) are
abstracted as parameters describing their observable behaviour.
-/

namespace MCPClient

/-- Observable events: console prints, log records at the three levels the
client uses, and the enter/exit actions on the two external context managers
(the transport context and the protocol session). -/
inductive Ev where
  | print (s : String)
  | logInfo (s : String)
  | logWarn (s : String)
  | logErr (s : String)
  | ctxEnter
  | ctxExitOk
  | ctxExitErr
  | sessEnter
  | sessExitOk
  | sessExitErr
deriving DecidableEq

/-- The characters Python `str.strip()` removes. -/
def isPyWhitespace (c : Char) : Bool :=
  c = ' ' ∨ c = '\t' ∨ c = '\n' ∨ c = '\r' ∨ c = '\x0b' ∨ c = '\x0c'

/-- Model of Python `str.strip()`: drop leading and trailing whitespace. -/
def pyStrip (s : String) : String :=
  ⟨((s.data.dropWhile isPyWhitespace).reverse.dropWhile isPyWhitespace).reverse⟩

/-- Model of Python `str.lower()` on the ASCII range the client compares
against. -/
def pyLower (s : String) : String :=
  ⟨s.data.map Char.toLower⟩

/-- Digit run of a Python base-10 integer literal: digits with single
underscores allowed between digits (`int("1_0") = 10`, `int("1__0")` and
`int("1_")` fail). The first character is checked by the caller. -/
def pyIntCore : List Char → Nat → Option Nat
  | [], acc => some acc
  | '_' :: c :: rest, acc =>
      if c.isDigit then pyIntCore rest (acc * 10 + (c.toNat - 48)) else none
  | c :: rest, acc =>
      if c.isDigit then pyIntCore rest (acc * 10 + (c.toNat - 48)) else none

/-- Model of Python `int(s)` for base 10: optional surrounding whitespace,
optional sign, then a nonempty digit run (underscores between digits).
`none` models `ValueError`. -/
def pyInt (s : String) : Option Int :=
  match (pyStrip s).data with
  | [] => none
  | '+' :: rest =>
      match rest with
      | [] => none
      | c :: _ => if c.isDigit then (pyIntCore rest 0).map Int.ofNat else none
  | '-' :: rest =>
      match rest with
      | [] => none
      | c :: _ =>
          if c.isDigit then (pyIntCore rest 0).map (fun n => -(Int.ofNat n)) else none
  | c :: rest =>
      if c.isDigit then (pyIntCore (c :: rest) 0).map Int.ofNat else none

/-- One property of a tool input schema: the raw `type` and `description`
entries of the property object (absent entries are `none`; the code applies
the defaults `"string"` and `""` at the use sites via `.get`). -/
structure PropSpec where
  ptype : Option String
  pdesc : Option String
deriving DecidableEq

/-- A tool as consumed by the client: name, optional description, and the
input schema split into its ordered `properties` mapping and `required`
name list (`tool.inputSchema or` an empty object). -/
structure Tool where
  name : String
  tdesc : Option String
  props : List (String × PropSpec)
  required : List String
deriving DecidableEq

/-- Result of running a piece of client code: either a value together with
the emitted events and the remaining operator input, or an uncaught Python
exception (named by a string) together with the emitted events. -/
inductive PyRes (α : Type) where
  | ok (a : α) (out : List Ev) (rest : List String)
  | exn (e : String) (out : List Ev)
deriving DecidableEq

/-- The enumerated line printed for the 1-based tool number `i`. -/
def toolLine (i : Nat) (t : Tool) : String :=
  toString i ++ ". " ++ t.name ++ " - " ++ (t.tdesc.getD "")

/-- The console listing printed by `choose_tool` for a nonempty tool list. -/
def toolListing (tools : List Tool) : List Ev :=
  Ev.print "\nAvailable tools:" ::
    tools.enum.map (fun p => Ev.print (toolLine (p.1 + 1) p.2))

/-- Prompt string of the selection `input()` call. -/
def selectPrompt : String := "\nSelect a tool by number: "

/-- Embedding of `MCPInteractiveHTTPClient.choose_tool`: an empty list
returns `None` at once; otherwise the listing is printed, one line of input
is read and stripped, parsed with `int`, and the 1-based index is checked
against the list length; parse failure is caught (`except ValueError`) and
logged; any failure path returns `None`. Reading at end of input raises
`EOFError`. -/
def chooseTool (tools : List Tool) (stdin : List String) : PyRes (Option Tool) :=
  if tools = [] then
    PyRes.ok none [] stdin
  else
    match stdin with
    | [] => PyRes.exn "EOFError" (toolListing tools ++ [Ev.print selectPrompt])
    | s :: rest =>
      let out0 := toolListing tools ++ [Ev.print selectPrompt]
      let choice := pyStrip s
      match pyInt choice with
      | some idx =>
          if 1 ≤ idx ∧ idx ≤ (tools.length : Int) then
            match tools.get? (idx.toNat - 1) with
            | some chosen =>
                PyRes.ok (some chosen)
                  (out0 ++ [Ev.logInfo ("User selected tool: " ++ chosen.name)]) rest
            | none => PyRes.ok none out0 rest
          else
            PyRes.ok none out0 rest
      | none =>
          PyRes.ok none
            (out0 ++ [Ev.logWarn ("User entered invalid tool index: " ++ choice)]) rest

/-- Example tool with one required string property, used as concrete input
by witnesses. -/
def toolEcho : Tool :=
  { name := "echo", tdesc := some "echo a message",
    props := [("msg", { ptype := some "string", pdesc := none })],
    required := ["msg"] }

/-- Second example tool. -/
def toolAdd : Tool :=
  { name := "add", tdesc := none,
    props := [("a", { ptype := some "integer", pdesc := none }),
              ("b", { ptype := some "integer", pdesc := none })],
    required := ["a"] }

/-- Third example tool, with no declared properties. -/
def toolPing : Tool :=
  { name := "ping", tdesc := some "ping", props := [], required := [] }

/-- Behaviour of the external collaborators during open and close: whether
each of the transport enters and the session enter succeeds, and whether
each of the two closes raises (`some e` is the raised exception). -/
structure TransportEnv where
  httpEnterOk : Bool
  sseEnterOk : Bool
  sessionEnterOk : Bool
  sessionExitErr : Option String
  ctxExitErr : Option String
deriving DecidableEq

/-- The client attributes relevant to the lifecycle: `ctx` models
`self._ctx is not None`, `session` models `self._session is not None`;
`ctxEntered` and `initialized` are history flags recording that the
transport enter, respectively the initialize handshake, completed. -/
structure ClientState where
  ctx : Bool
  ctxEntered : Bool
  session : Bool
  initialized : Bool
deriving DecidableEq

/-- State set by `__init__`: all handles are `None`. -/
def initialClientState : ClientState :=
  { ctx := false, ctxEntered := false, session := false, initialized := false }

/-- Outcome of `__aenter__`: the client state reached, the events emitted,
and the exception propagated, if any. -/
structure EnterOut where
  st : ClientState
  out : List Ev
  exn : Option String
deriving DecidableEq

/-- Embedding of `MCPInteractiveHTTPClient.__aenter__`: `"http"` assigns
`self._ctx` and enters the streamable-http context, `"sse"` likewise for the
SSE context, any other transport raises `ValueError` before creating or
entering any context; on the successful transport paths `ClientSession` is
created (assigning `self._session`) and entered. The surrounding
`except Exception` logs any failure and re-raises it; no cleanup of an
already-entered transport context happens on the failure paths. -/
def aenter (transport : String) (env : TransportEnv) : EnterOut :=
  let out0 := [Ev.logInfo ("Opening interactive client (transport=" ++ transport ++ ")")]
  if transport = "http" then
    let st1 : ClientState := { initialClientState with ctx := true }
    if env.httpEnterOk then
      let st2 : ClientState := { st1 with ctxEntered := true }
      let out1 := out0 ++ [Ev.ctxEnter, Ev.logInfo "Streamable-http session started"]
      let st3 : ClientState := { st2 with session := true }
      if env.sessionEnterOk then
        { st := st3,
          out := out1 ++ [Ev.sessEnter, Ev.logInfo "ClientSession successfully entered"],
          exn := none }
      else
        { st := st3,
          out := out1 ++ [Ev.logErr "Failed to open interactive client: session enter"],
          exn := some "SessionEnterError" }
    else
      { st := st1,
        out := out0 ++ [Ev.logErr "Failed to open interactive client: transport enter"],
        exn := some "ConnectionError" }
  else if transport = "sse" then
    let st1 : ClientState := { initialClientState with ctx := true }
    if env.sseEnterOk then
      let st2 : ClientState := { st1 with ctxEntered := true }
      let out1 := out0 ++ [Ev.ctxEnter, Ev.logInfo "SSE connection established"]
      let st3 : ClientState := { st2 with session := true }
      if env.sessionEnterOk then
        { st := st3,
          out := out1 ++ [Ev.sessEnter, Ev.logInfo "ClientSession successfully entered"],
          exn := none }
      else
        { st := st3,
          out := out1 ++ [Ev.logErr "Failed to open interactive client: session enter"],
          exn := some "SessionEnterError" }
    else
      { st := st1,
        out := out0 ++ [Ev.logErr "Failed to open interactive client: transport enter"],
        exn := some "ConnectionError" }
  else
    { st := initialClientState,
      out := out0 ++ [Ev.logErr ("Unknown client transport: " ++ transport),
                      Ev.logErr "Failed to open interactive client: ValueError"],
      exn := some ("ValueError: Unknown client transport: " ++ transport) }

/-- The close call on the protocol session, as seen by `__aexit__`: either
it completes, or it raises the exception configured in the environment. -/
def sessionCloseOp (env : TransportEnv) : Except String (List Ev) :=
  match env.sessionExitErr with
  | none => Except.ok [Ev.sessExitOk]
  | some e => Except.error e

/-- The close call on the transport context, as seen by `__aexit__`. -/
def ctxCloseOp (env : TransportEnv) : Except String (List Ev) :=
  match env.ctxExitErr with
  | none => Except.ok [Ev.ctxExitOk]
  | some e => Except.error e

/-- One `try/except Exception` block of `__aexit__`: on success append the
success log, on failure record the failed attempt and the error log. -/
def tryClose (body : Except String (List Ev)) (okLog : String)
    (errEv : Ev) (errPre : String) : List Ev :=
  match body with
  | Except.ok evs => evs ++ [Ev.logInfo okLog]
  | Except.error e => [errEv, Ev.logErr (errPre ++ e)]

/-- Embedding of `MCPInteractiveHTTPClient.__aexit__`: first the protocol
session is closed if `self._session` is set, then the transport context if
`self._ctx` is set, each attempt wrapped in its own `try/except Exception`
that logs and swallows the failure. The `Except` result type records a
raised exception; the structure of the code never produces one. -/
def aexit (env : TransportEnv) (st : ClientState) : Except String (List Ev) :=
  let out0 := [Ev.logInfo "Closing interactive client"]
  let sessPart :=
    if st.session then
      tryClose (sessionCloseOp env) "ClientSession closed"
        Ev.sessExitErr "Error while closing ClientSession: "
    else []
  let ctxPart :=
    if st.ctx then
      tryClose (ctxCloseOp env) "Transport context closed"
        Ev.ctxExitErr "Error while closing transport context: "
    else []
  Except.ok (out0 ++ sessPart ++ ctxPart)

/-- The two resources `__aexit__` may attempt to close. -/
inductive CloseKind where
  | session
  | ctx
deriving DecidableEq

/-- Which close attempt, if any, an event records (successful or failed). -/
def closeKindOf : Ev → Option CloseKind
  | Ev.sessExitOk => some CloseKind.session
  | Ev.sessExitErr => some CloseKind.session
  | Ev.ctxExitOk => some CloseKind.ctx
  | Ev.ctxExitErr => some CloseKind.ctx
  | _ => none

/-- The sequence of close attempts recorded in an event list. -/
def closeAttemptsOf (evs : List Ev) : List CloseKind :=
  evs.filterMap closeKindOf

/-- The `async with client:` execution: enter, then the body (abstracted to
its outcome), then exit — but, per the Python context-manager protocol, exit
runs only when the enter returned normally. A body exception propagates
unchanged when the exit completes normally. -/
def withClient (transport : String) (env : TransportEnv) (body : Except String Unit) :
    Except String Unit × List Ev :=
  let en := aenter transport env
  match en.exn with
  | some e => (Except.error e, en.out)
  | none =>
    match aexit env en.st with
    | Except.ok tr => (body, en.out ++ tr)
    | Except.error ce => (Except.error ce, en.out)

/-- Environment in which both transport enters succeed but the protocol
session enter fails, and both closes would succeed. -/
def leakEnv : TransportEnv :=
  { httpEnterOk := true, sseEnterOk := true, sessionEnterOk := false,
    sessionExitErr := none, ctxExitErr := none }

/-- Environment in which open succeeds fully and both closes raise. -/
def failingCloseEnv : TransportEnv :=
  { httpEnterOk := true, sseEnterOk := true, sessionEnterOk := true,
    sessionExitErr := some "SessionCloseBoom", ctxExitErr := some "CtxCloseBoom" }

/-- The primitive parsers the client delegates to, abstracted over their
result types: Python `float(s)` (`none` models `ValueError`) and
`json.loads(s)` (`Except.error m` models `json.JSONDecodeError` with
message `m`). -/
structure Prims (F J : Type) where
  pyFloat : String → Option F
  jsonLoads : String → Except String J

/-- A parsed argument value: Python str, int, float, bool, or the value
returned by `json.loads`. -/
inductive Value (F J : Type) where
  | str (s : String)
  | int (i : Int)
  | float (f : F)
  | bool (b : Bool)
  | json (j : J)
deriving DecidableEq

/-- Embedding of `MCPInteractiveHTTPClient._parse_schema_value` (the
`prop_name` parameter is unused by the source body and omitted): dispatch
on the declared JSON-schema type tag; `integer` uses `int`, `number` uses
`float`, `boolean` matches the lowered text against the truthy and falsy
token tuples, `array`/`object` use `json.loads` wrapping the decode error
message, and every other tag returns the text unchanged. -/
def parseSchemaValue (P : Prims F J) (propType valueStr : String) :
    Except String (Value F J) :=
  if propType = "integer" then
    match pyInt valueStr with
    | some i => Except.ok (Value.int i)
    | none => Except.error ("invalid literal for int with base 10: " ++ valueStr)
  else if propType = "number" then
    match P.pyFloat valueStr with
    | some f => Except.ok (Value.float f)
    | none => Except.error ("could not convert string to float: " ++ valueStr)
  else if propType = "boolean" then
    let lower := pyLower valueStr
    if lower = "true" ∨ lower = "1" ∨ lower = "yes" ∨ lower = "y" then
      Except.ok (Value.bool true)
    else if lower = "false" ∨ lower = "0" ∨ lower = "no" ∨ lower = "n" then
      Except.ok (Value.bool false)
    else
      Except.error "Please enter true/false."
  else if propType = "array" ∨ propType = "object" then
    match P.jsonLoads valueStr with
    | Except.ok j => Except.ok (Value.json j)
    | Except.error m =>
        Except.error ("Please enter valid JSON for " ++ propType ++ ": " ++ m)
  else
    Except.ok (Value.str valueStr)

/-- Prepend events to the output of a result. -/
def PyRes.withPre (pre : List Ev) : PyRes α → PyRes α
  | PyRes.ok a out rest => PyRes.ok a (pre ++ out) rest
  | PyRes.exn e out => PyRes.exn e (pre ++ out)

/-- The prompt label built for one property: name, effective type (default
`"string"`), description when nonempty, required/optional marker, the JSON
hint for `array`/`object`, and the trailing `": "` of the `input` call. -/
def buildLabel (propName : String) (spec : PropSpec) (isRequired : Bool) : String :=
  let propType := spec.ptype.getD "string"
  let desc := spec.pdesc.getD ""
  let l := propName ++ " (" ++ propType ++ ")"
  let l := if desc = "" then l else l ++ " - " ++ desc
  let l := l ++ (if isRequired then " [required]" else " [optional]")
  let l := if propType = "array" ∨ propType = "object" then
    l ++ " (enter JSON value)" else l
  l ++ ": "

/-- The per-property `while True` loop of `prompt_arguments_for_tool`: read
a line and strip it; empty input on a required property prints the reason
and repeats, on an optional property ends the loop with no value; non-empty
input is parsed, a `ValueError` is printed and the same property repeats,
and a parsed value ends the loop. Reading past the end of input raises
`EOFError`, which nothing in this function catches. -/
def promptProp (P : Prims F J) (label propName propType : String)
    (isRequired : Bool) : List String → PyRes (Option (Value F J))
  | [] => PyRes.exn "EOFError" [Ev.print label]
  | v :: rest =>
    let valueStr := pyStrip v
    if valueStr = "" then
      if isRequired then
        PyRes.withPre
          [Ev.print label, Ev.print "This field is required.",
           Ev.logWarn ("Required field " ++ propName ++ " left empty by user")]
          (promptProp P label propName propType isRequired rest)
      else
        PyRes.ok none [Ev.print label] rest
    else
      match parseSchemaValue P propType valueStr with
      | Except.error m =>
          PyRes.withPre
            [Ev.print label, Ev.print m,
             Ev.logWarn ("Invalid value for " ++ propName ++ ": " ++ valueStr)]
            (promptProp P label propName propType isRequired rest)
      | Except.ok value => PyRes.ok (some value) [Ev.print label] rest

/-- The `for prop_name, prop_def in schema_props.items()` loop: prompt each
declared property in order, adding an entry to the arguments dict exactly
when the per-property loop produced a value. -/
def promptArgsGo (P : Prims F J) (required : List String) :
    List (String × PropSpec) → List (String × Value F J) → List String →
    PyRes (List (String × Value F J))
  | [], acc, stdin => PyRes.ok acc [] stdin
  | (pn, spec) :: ps, acc, stdin =>
    let isReq := required.contains pn
    let label := buildLabel pn spec isReq
    match promptProp P label pn (spec.ptype.getD "string") isReq stdin with
    | PyRes.exn e out => PyRes.exn e out
    | PyRes.ok none out rest =>
        PyRes.withPre out (promptArgsGo P required ps acc rest)
    | PyRes.ok (some v) out rest =>
        PyRes.withPre out (promptArgsGo P required ps (acc ++ [(pn, v)]) rest)

/-- Embedding of `MCPInteractiveHTTPClient.prompt_arguments_for_tool`:
print the schema header; with no declared properties return the empty
arguments dict at once; otherwise run the property loop over the declared
properties in order. -/
def promptArgumentsForTool (P : Prims F J) (tool : Tool) (stdin : List String) :
    PyRes (List (String × Value F J)) :=
  let header := Ev.print ("\nTool " ++ tool.name ++ " argument schema:")
  if tool.props = [] then
    PyRes.ok []
      [header, Ev.print "  (no schema provided, using empty arguments \x7b\x7d)",
       Ev.logInfo ("Tool " ++ tool.name ++ " has no input schema; using empty arguments")]
      stdin
  else
    PyRes.withPre [header]
      (match promptArgsGo P tool.required tool.props [] stdin with
       | PyRes.ok args out rest =>
           PyRes.ok args
             (out ++ [Ev.logInfo ("Collected arguments for tool " ++ tool.name)]) rest
       | PyRes.exn e out => PyRes.exn e out)

/-- Concrete primitive parsers over trivial result types, used by witnesses:
`float` always fails, `json.loads` accepts only the empty array text. -/
def trivPrims : Prims Unit Unit :=
  { pyFloat := fun _ => none,
    jsonLoads := fun s => if s = "[]" then Except.ok () else Except.error "Expecting value" }

/-- Embedding of `MCPInteractiveHTTPClient.list_tools` over the client
state: the code checks only `self._session is None` (raising
`RuntimeError("Session not started")`); once the session object exists the
listing request is issued regardless of whether the initialize handshake
ever completed, and the server outcome (`serverRes`) is returned, or its
exception is logged and re-raised. -/
def listToolsM (serverRes : Except String (List Tool)) (st : ClientState) :
    Except String (List Tool) × List Ev :=
  if st.session = false then
    (Except.error "RuntimeError: Session not started", [])
  else
    match serverRes with
    | Except.ok tools =>
        (Except.ok tools,
         [Ev.logInfo "Requesting tools/list",
          Ev.logInfo ("Received " ++ toString tools.length ++ " tools")])
    | Except.error e =>
        (Except.error e,
         [Ev.logInfo "Requesting tools/list", Ev.logErr ("tools/list failed: " ++ e)])

/-- Embedding of `list_tools_simple`: project the tool names, propagating a
`list_tools` failure unchanged. -/
def listToolsSimpleM (serverRes : Except String (List Tool)) (st : ClientState) :
    Except String (List String) × List Ev :=
  match listToolsM serverRes st with
  | (Except.ok tools, out) => (Except.ok (tools.map Tool.name), out)
  | (Except.error e, out) => (Except.error e, out)

/-- Left-to-right single-pass replacement of each two-character
backslash-n sequence by a newline character, the embedding of
`result_json_str.replace("\\n", "\n")`. -/
def unescapeNewlines : List Char → List Char
  | '\\' :: 'n' :: rest => '\n' :: unescapeNewlines rest
  | c :: rest => c :: unescapeNewlines rest
  | [] => []

/-- Removal of every remaining backslash, the embedding of
`.replace("\\", "")`. -/
def stripBackslashes (cs : List Char) : List Char :=
  cs.filter (fun c => c != '\\')

/-- The readability rendering of `call_tool`: unescape newlines in the raw
rendering, then strip all remaining backslashes. -/
def readabilityRender (s : String) : String :=
  ⟨stripBackslashes (unescapeNewlines s.data)⟩

/-- Behaviour of the remote call and of `json.dumps` (with `indent=2`),
abstracted: the call outcome per tool name and arguments, the rendering of
a result dict, and the rendering of an arguments dict. -/
structure CallEnv (F J : Type) where
  callRes : String → List (String × Value F J) → Except String J
  dumps : J → String
  dumpsArgs : List (String × Value F J) → String

/-- Embedding of the interactive `call_tool`: echo the arguments, perform
the call (logging and re-raising a failure), print the raw rendering of the
result, print the readability rendering, and return the raw result dict. -/
def callToolM (env : CallEnv F J) (tool : Tool) (args : List (String × Value F J)) :
    Except String J × List Ev :=
  let out0 := [Ev.logInfo ("Calling tool " ++ tool.name),
               Ev.print ("\nCalling tool " ++ tool.name ++ " with arguments:"),
               Ev.print (env.dumpsArgs args)]
  match env.callRes tool.name args with
  | Except.error e =>
      (Except.error e,
       out0 ++ [Ev.logErr ("Tool call for " ++ tool.name ++ " failed: " ++ e)])
  | Except.ok r =>
      let raw := env.dumps r
      let final := readabilityRender raw
      (Except.ok r,
       out0 ++ [Ev.print "\n[TOOL RESULT (raw JSON)]", Ev.print raw,
         Ev.print "\n[FINAL RESULT (rendered for readability, JSON formatting may be invalid)]",
         Ev.print final])

/-- Whether an event is a console print (as opposed to a log record or a
resource action). -/
def isPrint : Ev → Bool
  | Ev.print _ => true
  | _ => false

/-- The behaviour of the collaborators during `run`: the primitive parsers,
the outcome of `session.initialize()`, the outcome of the listing request,
and the call behaviour. -/
structure RunEnv (F J : Type) where
  prims : Prims F J
  initErr : Option String
  toolsRes : Except String (List Tool)
  call : CallEnv F J

/-- Outcome of the `try` block inside the interactive loop body: an
exception, a `continue` after an invalid selection, or a completed
invocation. -/
inductive BodyOut (F J : Type) where
  | exn (e : String) (out : List Ev)
  | contin (out : List Ev) (rest : List String)
  | called (r : J) (out : List Ev) (rest : List String)

/-- The `try` block of one iteration of `run`: select a tool (`None`
continues the loop), prompt its arguments, call it; any exception escaping
these steps is captured. -/
def bodyRun (env : RunEnv F J) (tools : List Tool) (stdin : List String) :
    BodyOut F J :=
  match chooseTool tools stdin with
  | PyRes.exn e out => BodyOut.exn e out
  | PyRes.ok none out rest => BodyOut.contin out rest
  | PyRes.ok (some tool) out rest =>
      match promptArgumentsForTool env.prims tool rest with
      | PyRes.exn e out2 => BodyOut.exn e (out ++ out2)
      | PyRes.ok args out2 rest2 =>
          match callToolM env.call tool args with
          | (Except.error e, out3) => BodyOut.exn e (out ++ out2 ++ out3)
          | (Except.ok r, out3) => BodyOut.called r (out ++ out2 ++ out3) rest2

/-- Prompt string of the continue question. -/
def againPrompt : String := "\nCall another tool? [y/n]: "

/-- Outcome of one iteration of the `while True` loop of `run`. -/
inductive StepOut where
  | stop (out : List Ev)
  | again (out : List Ev) (rest : List String)
  | crash (e : String) (out : List Ev)

/-- One iteration of the interactive loop: an exception in the body is
logged and breaks the loop; after a completed invocation the stripped,
lowered answer to the continue question breaks the loop exactly on
"n"/"no"/empty; reading the answer at end of input raises `EOFError`
outside the `try`, escaping `run`. -/
def loopStep (env : RunEnv F J) (tools : List Tool) (stdin : List String) : StepOut :=
  match bodyRun env tools stdin with
  | BodyOut.exn e out =>
      StepOut.stop (out ++ [Ev.logErr ("Error during interactive tool call: " ++ e)])
  | BodyOut.contin out rest => StepOut.again out rest
  | BodyOut.called _ out rest =>
      match rest with
      | [] => StepOut.crash "EOFError" (out ++ [Ev.print againPrompt])
      | a :: rest2 =>
          let ans := pyLower (pyStrip a)
          if ans = "n" ∨ ans = "no" ∨ ans = "" then
            StepOut.stop (out ++ [Ev.print againPrompt,
              Ev.logInfo "User chose to exit interactive loop"])
          else
            StepOut.again (out ++ [Ev.print againPrompt]) rest2

/-- Outcome of `run`: normal return, an escaping exception, or fuel
exhaustion of the model (the Python loop has no fuel bound). -/
inductive RunOut where
  | finished (out : List Ev)
  | crash (e : String) (out : List Ev)
  | fuelOut (out : List Ev)

/-- The `while True` loop of `run`, iterated under fuel. -/
def runLoop (env : RunEnv F J) (tools : List Tool) :
    Nat → List String → List Ev → RunOut
  | 0, _, acc => RunOut.fuelOut acc
  | Nat.succ fuel, stdin, acc =>
      match loopStep env tools stdin with
      | StepOut.stop out => RunOut.finished (acc ++ out)
      | StepOut.crash e out => RunOut.crash e (acc ++ out)
      | StepOut.again out rest => runLoop env tools fuel rest (acc ++ out)

/-- Embedding of `MCPInteractiveHTTPClient.run`: initialize and list tools
inside a `try` whose handler logs the failure and returns; report and
return on an empty tool list; otherwise enter the interactive loop. -/
def runClient (env : RunEnv F J) (stdin : List String) (fuel : Nat) : RunOut :=
  match env.initErr with
  | some e =>
      RunOut.finished
        [Ev.logInfo "Initializing MCP session",
         Ev.logErr ("Initialize failed: " ++ e),
         Ev.logErr ("Failed to start interactive loop: " ++ e)]
  | none =>
      let initOut := [Ev.logInfo "Initializing MCP session",
                      Ev.logInfo "MCP session successfully initialized"]
      match env.toolsRes with
      | Except.error e =>
          RunOut.finished
            (initOut ++ [Ev.logInfo "Requesting tools/list",
              Ev.logErr ("tools/list failed: " ++ e),
              Ev.logErr ("Failed to start interactive loop: " ++ e)])
      | Except.ok tools =>
          let listOut := initOut ++ [Ev.logInfo "Requesting tools/list",
            Ev.logInfo ("Received " ++ toString tools.length ++ " tools")]
          if tools = [] then
            RunOut.finished (listOut ++ [Ev.print "No tools available.",
              Ev.logWarn "Server returned no tools"])
          else
            runLoop env tools fuel stdin listOut

/-- Run environment whose initialize fails, used as concrete input. -/
def initFailEnv : RunEnv Unit Unit :=
  { prims := trivPrims,
    initErr := some "boom",
    toolsRes := Except.ok [],
    call := { callRes := fun _ _ => Except.error "no",
              dumps := fun _ => "null", dumpsArgs := fun _ => "\x7b\x7d" } }

/-- The trace `run` emits when initialize fails with "boom". -/
def initFailTrace : List Ev :=
  [Ev.logInfo "Initializing MCP session",
   Ev.logErr "Initialize failed: boom",
   Ev.logErr "Failed to start interactive loop: boom"]

/-- Fully successful run environment over trivial result types: one tool
with no schema, calls succeed and render as "null". -/
def demoRunEnv : RunEnv Unit Unit :=
  { prims := trivPrims,
    initErr := none,
    toolsRes := Except.ok [toolPing],
    call := { callRes := fun _ _ => Except.ok (),
              dumps := fun _ => "null", dumpsArgs := fun _ => "\x7b\x7d" } }

/-- The events the loop body emits in `demoRunEnv` for input "1" then "n". -/
def demoBodyOut : List Ev :=
  [Ev.print "\nAvailable tools:",
   Ev.print "1. ping - ping",
   Ev.print "\nSelect a tool by number: ",
   Ev.logInfo "User selected tool: ping",
   Ev.print "\nTool ping argument schema:",
   Ev.print "  (no schema provided, using empty arguments \x7b\x7d)",
   Ev.logInfo "Tool ping has no input schema; using empty arguments",
   Ev.logInfo "Calling tool ping",
   Ev.print "\nCalling tool ping with arguments:",
   Ev.print "\x7b\x7d",
   Ev.print "\n[TOOL RESULT (raw JSON)]",
   Ev.print "null",
   Ev.print "\n[FINAL RESULT (rendered for readability, JSON formatting may be invalid)]",
   Ev.print "null"]

/-- Call environment over string results whose rendering is the result
itself, used as concrete input by witnesses. -/
def demoCallEnv : CallEnv Unit String :=
  { callRes := fun _ _ => Except.ok "\x7b \"text\": \"line1\\nline2\" \x7d",
    dumps := fun j => j,
    dumpsArgs := fun _ => "\x7b\x7d" }

/-- C3: for a nonempty tool list of length N the selection returns the tool
at 1-based position i exactly when the trimmed input parses as an integer i
with 1 ≤ i ≤ N, every other input yields `none` without an exception, and an
empty tool list yields `none` immediately, printing nothing and consuming no
input. -/
theorem chooseTool_spec :
    (∀ stdin, chooseTool [] stdin = PyRes.ok none [] stdin) ∧
    (∀ (tools : List Tool) (s : String) (rest : List String), tools ≠ [] →
      ∃ out, chooseTool tools (s :: rest) =
        PyRes.ok
          (match pyInt (pyStrip s) with
            | some idx =>
                if 1 ≤ idx ∧ idx ≤ (tools.length : Int) then
                  tools.get? (idx.toNat - 1)
                else none
            | none => none)
          out rest) := by
  constructor
  · intro stdin
    simp [chooseTool]
  · intro tools s rest htools
    simp only [chooseTool, if_neg htools]
    cases hp : pyInt (pyStrip s) with
    | none => exact ⟨_, rfl⟩
    | some idx =>
        by_cases hr : 1 ≤ idx ∧ idx ≤ (tools.length : Int)
        · simp only [if_pos hr]
          cases hg : tools.get? (idx.toNat - 1) with
          | none => exact ⟨_, rfl⟩
          | some chosen => exact ⟨_, rfl⟩
        · simp only [if_neg hr]
          exact ⟨_, rfl⟩

/-- Witness for C3 at the concrete list `[echo, add, ping]` and input "2":
the selection returns the second tool. -/
theorem chooseTool_spec_witness :
    ∃ out, chooseTool [toolEcho, toolAdd, toolPing] ["2"] =
      PyRes.ok (some toolAdd) out [] := by
  obtain ⟨out, hout⟩ := chooseTool_spec.2 [toolEcho, toolAdd, toolPing] "2" [] (by decide)
  refine ⟨out, ?_⟩
  rw [hout]
  congr 1

/-- C1 (code bug): in the scoped acquisition, when the transport enter
succeeds and the protocol-session enter then fails, `__aenter__` re-raises,
the surrounding `async with` never calls `__aexit__`, and the opened channel
is never closed: the trace has one channel open and zero close attempts. -/
theorem channel_leak_on_session_enter_failure :
    (withClient "http" leakEnv (Except.ok ())).1 = Except.error "SessionEnterError" ∧
    (withClient "http" leakEnv (Except.ok ())).2.count Ev.ctxEnter = 1 ∧
    (withClient "http" leakEnv (Except.ok ())).2.count Ev.ctxExitOk = 0 ∧
    (withClient "http" leakEnv (Except.ok ())).2.count Ev.ctxExitErr = 0 :=
  ⟨rfl, by decide, by decide, by decide⟩

/-- C2: `__aexit__` never raises, for every client state and every behaviour
of the two underlying close operations; it attempts the session close first
and the transport-context close second, each exactly once when the
corresponding handle is set (in particular after a failed initialize, where
`session` is set and `initialized` is not), and a body error is propagated
unchanged through the exit. -/
theorem aexit_total_spec :
    (∀ (env : TransportEnv) (st : ClientState),
      ∃ tr, aexit env st = Except.ok tr ∧
        closeAttemptsOf tr =
          (if st.session then [CloseKind.session] else []) ++
          (if st.ctx then [CloseKind.ctx] else [])) ∧
    (∀ (transport : String) (env : TransportEnv) (e : String),
      (aenter transport env).exn = none →
      (withClient transport env (Except.error e)).1 = Except.error e) := by
  constructor
  · intro env st
    refine ⟨_, rfl, ?_⟩
    by_cases hs : st.session <;> by_cases hc : st.ctx <;>
      cases he : env.sessionExitErr <;> cases he2 : env.ctxExitErr <;>
        simp [aexit, tryClose, sessionCloseOp, ctxCloseOp, closeAttemptsOf,
          closeKindOf, hs, hc, he, he2]
  · intro transport env e hnone
    simp [withClient, hnone, aexit]

/-- Witness for C2: a client state after a failed initialize (session
created, handshake not completed), with both closes raising: the exit still
returns normally, attempting session close then context close; and with a
fully successful open, a primary body error survives the exit. -/
theorem aexit_total_spec_witness :
    (∃ tr,
      aexit failingCloseEnv
          { ctx := true, ctxEntered := true, session := true, initialized := false } =
        Except.ok tr ∧
      closeAttemptsOf tr = [CloseKind.session, CloseKind.ctx]) ∧
    (withClient "http" failingCloseEnv (Except.error "PrimaryError")).1 =
      Except.error "PrimaryError" := by
  constructor
  · have h := aexit_total_spec.1 failingCloseEnv
      { ctx := true, ctxEntered := true, session := true, initialized := false }
    simpa using h
  · exact aexit_total_spec.2 "http" failingCloseEnv "PrimaryError" (by decide)

/-- C7: every transport other than "http" and "sse" makes `__aenter__`
raise a `ValueError` configuration error with no channel opened, no session
created and no network enter event of any kind in the trace. -/
theorem aenter_unknown_transport :
    ∀ (transport : String) (env : TransportEnv),
      transport ≠ "http" → transport ≠ "sse" →
      (aenter transport env).exn =
        some ("ValueError: Unknown client transport: " ++ transport) ∧
      (aenter transport env).st = initialClientState ∧
      Ev.ctxEnter ∉ (aenter transport env).out ∧
      Ev.sessEnter ∉ (aenter transport env).out := by
  intro transport env h1 h2
  simp [aenter, h1, h2]

/-- Witness for C7 at the unrecognized transport kind "ws". -/
theorem aenter_unknown_transport_witness :
    (aenter "ws" leakEnv).exn =
      some ("ValueError: Unknown client transport: " ++ "ws") ∧
    (aenter "ws" leakEnv).st = initialClientState ∧
    Ev.ctxEnter ∉ (aenter "ws" leakEnv).out ∧
    Ev.sessEnter ∉ (aenter "ws" leakEnv).out :=
  aenter_unknown_transport "ws" leakEnv (by decide) (by decide)

/-- Lookup in an appended association list is found iff it is found in one
of the parts. -/
theorem lookup_append_isSome {β : Type} (l1 l2 : List (String × β)) (p : String) :
    ((l1 ++ l2).lookup p).isSome = ((l1.lookup p).isSome || (l2.lookup p).isSome) := by
  induction l1 with
  | nil => simp
  | cons x l ih =>
      rcases x with ⟨k, v⟩
      cases hk : (p == k) <;> simp [List.lookup, hk, ih]

/-- The per-property loop for a required property never ends without a
value. -/
theorem promptProp_required_isSome {F J : Type} (P : Prims F J) (label pn pt : String) :
    ∀ (stdin : List String) (a : Option (Value F J)) (out : List Ev) (rest : List String),
      promptProp P label pn pt true stdin = PyRes.ok a out rest → a.isSome = true := by
  intro stdin
  induction stdin with
  | nil => intro a out rest h; simp [promptProp] at h
  | cons v rest' ih =>
      intro a out rest h
      simp only [promptProp] at h
      by_cases hv : pyStrip v = ""
      · rw [if_pos hv] at h
        simp only [if_true, ite_true] at h
        cases hrec : promptProp P label pn pt true rest' with
        | ok a2 out2 r2 =>
            rw [hrec] at h
            simp only [PyRes.withPre, PyRes.ok.injEq] at h
            exact h.1 ▸ ih a2 out2 r2 hrec
        | exn e o =>
            rw [hrec] at h
            simp [PyRes.withPre] at h
      · rw [if_neg hv] at h
        split at h
        · rename_i m heq
          cases hrec : promptProp P label pn pt true rest' with
          | ok a2 out2 r2 =>
              rw [hrec] at h
              simp only [PyRes.withPre, PyRes.ok.injEq] at h
              exact h.1 ▸ ih a2 out2 r2 hrec
          | exn e o =>
              rw [hrec] at h
              simp [PyRes.withPre] at h
        · rename_i value heq
          simp only [PyRes.ok.injEq] at h
          rw [← h.1]
          rfl

/-- Every key found in the result of the property loop was already in the
accumulator or is one of the remaining declared property names. -/
theorem promptArgsGo_lookup_origin {F J : Type} (P : Prims F J) (required : List String) :
    ∀ (ps : List (String × PropSpec)) (acc : List (String × Value F J))
      (stdin : List String) args out rest,
      promptArgsGo P required ps acc stdin = PyRes.ok args out rest →
      ∀ p, (args.lookup p).isSome = true →
        (acc.lookup p).isSome = true ∨ p ∈ ps.map Prod.fst := by
  intro ps
  induction ps with
  | nil =>
      intro acc stdin args out rest h p hp
      simp only [promptArgsGo, PyRes.ok.injEq] at h
      exact Or.inl (h.1 ▸ hp)
  | cons x ps ih =>
      intro acc stdin args out rest h p hp
      rcases x with ⟨pn, spec⟩
      simp only [promptArgsGo] at h
      split at h
      · simp at h
      · rename_i out2 r2 heq
        cases hrec : promptArgsGo P required ps acc r2 with
        | ok a3 o3 r3 =>
            rw [hrec] at h
            simp only [PyRes.withPre, PyRes.ok.injEq] at h
            rcases ih acc r2 a3 o3 r3 hrec p (h.1 ▸ hp) with hl | hr
            · exact Or.inl hl
            · exact Or.inr (by simp [hr])
        | exn e o =>
            rw [hrec] at h
            simp [PyRes.withPre] at h
      · rename_i v out2 r2 heq
        cases hrec : promptArgsGo P required ps (acc ++ [(pn, v)]) r2 with
        | ok a3 o3 r3 =>
            rw [hrec] at h
            simp only [PyRes.withPre, PyRes.ok.injEq] at h
            rcases ih (acc ++ [(pn, v)]) r2 a3 o3 r3 hrec p (h.1 ▸ hp) with hl | hr
            · rw [lookup_append_isSome] at hl
              rcases Bool.or_eq_true_iff.mp hl with h1 | h1
              · exact Or.inl h1
              · refine Or.inr ?_
                simp only [List.lookup] at h1
                by_cases hpk : p = pn
                · simp [hpk]
                · simp [beq_eq_false_iff_ne.mpr hpk] at h1
            · exact Or.inr (by simp [hr])
        | exn e o =>
            rw [hrec] at h
            simp [PyRes.withPre] at h

/-- Keys already collected survive the rest of the property loop. -/
theorem promptArgsGo_lookup_mono {F J : Type} (P : Prims F J) (required : List String) :
    ∀ (ps : List (String × PropSpec)) (acc : List (String × Value F J))
      (stdin : List String) args out rest,
      promptArgsGo P required ps acc stdin = PyRes.ok args out rest →
      ∀ p, (acc.lookup p).isSome = true → (args.lookup p).isSome = true := by
  intro ps
  induction ps with
  | nil =>
      intro acc stdin args out rest h p hp
      simp only [promptArgsGo, PyRes.ok.injEq] at h
      exact h.1 ▸ hp
  | cons x ps ih =>
      intro acc stdin args out rest h p hp
      rcases x with ⟨pn, spec⟩
      simp only [promptArgsGo] at h
      split at h
      · simp at h
      · rename_i out2 r2 heq
        cases hrec : promptArgsGo P required ps acc r2 with
        | ok a3 o3 r3 =>
            rw [hrec] at h
            simp only [PyRes.withPre, PyRes.ok.injEq] at h
            exact h.1 ▸ ih acc r2 a3 o3 r3 hrec p hp
        | exn e o =>
            rw [hrec] at h
            simp [PyRes.withPre] at h
      · rename_i v out2 r2 heq
        cases hrec : promptArgsGo P required ps (acc ++ [(pn, v)]) r2 with
        | ok a3 o3 r3 =>
            rw [hrec] at h
            simp only [PyRes.withPre, PyRes.ok.injEq] at h
            refine h.1 ▸ ih (acc ++ [(pn, v)]) r2 a3 o3 r3 hrec p ?_
            rw [lookup_append_isSome, hp]
            rfl
        | exn e o =>
            rw [hrec] at h
            simp [PyRes.withPre] at h

/-- When the property loop completes, every declared property that is in
the required list has a value in the result. -/
theorem promptArgsGo_required_covered {F J : Type} (P : Prims F J) (required : List String) :
    ∀ (ps : List (String × PropSpec)) (acc : List (String × Value F J))
      (stdin : List String) args out rest,
      promptArgsGo P required ps acc stdin = PyRes.ok args out rest →
      ∀ p, p ∈ ps.map Prod.fst → required.contains p = true →
        (args.lookup p).isSome = true := by
  intro ps
  induction ps with
  | nil =>
      intro acc stdin args out rest h p hmem
      simp at hmem
  | cons x ps ih =>
      intro acc stdin args out rest h p hmem hreq
      rcases x with ⟨pn, spec⟩
      simp only [promptArgsGo] at h
      by_cases hppn : p = pn
      · subst hppn
        rw [hreq] at h
        split at h
        · rename_i e o heq
          simp at h
        · rename_i out2 r2 heq
          have ha2 := promptProp_required_isSome P (buildLabel p spec true) p
            (spec.ptype.getD "string") stdin none out2 r2 heq
          simp at ha2
        · rename_i v out2 r2 heq
          cases hrec : promptArgsGo P required ps (acc ++ [(p, v)]) r2 with
          | ok a3 o3 r3 =>
              rw [hrec] at h
              simp only [PyRes.withPre, PyRes.ok.injEq] at h
              refine h.1 ▸ promptArgsGo_lookup_mono P required ps
                (acc ++ [(p, v)]) r2 a3 o3 r3 hrec p ?_
              rw [lookup_append_isSome]
              simp [List.lookup]
          | exn e o =>
              rw [hrec] at h
              simp [PyRes.withPre] at h
      · have hmem' : p ∈ ps.map Prod.fst := by
          rcases (by simpa using hmem : p = pn ∨ p ∈ ps.map Prod.fst) with h1 | h1
          · exact absurd h1 hppn
          · exact h1
        split at h
        · simp at h
        · rename_i out2 r2 heq
          cases hrec : promptArgsGo P required ps acc r2 with
          | ok a3 o3 r3 =>
              rw [hrec] at h
              simp only [PyRes.withPre, PyRes.ok.injEq] at h
              exact h.1 ▸ ih acc r2 a3 o3 r3 hrec p hmem' hreq
          | exn e o =>
              rw [hrec] at h
              simp [PyRes.withPre] at h
        · rename_i v out2 r2 heq
          cases hrec : promptArgsGo P required ps (acc ++ [(pn, v)]) r2 with
          | ok a3 o3 r3 =>
              rw [hrec] at h
              simp only [PyRes.withPre, PyRes.ok.injEq] at h
              exact h.1 ▸ ih (acc ++ [(pn, v)]) r2 a3 o3 r3 hrec p hmem' hreq
          | exn e o =>
              rw [hrec] at h
              simp [PyRes.withPre] at h

/-- C4: when the prompt sequence completes, the returned arguments map has a
value for every required property declared in the schema's properties; empty
input on a required property prints the visible reason and re-prompts the
same property; empty input on an optional property ends that property at
once with no value, and the key is absent from the returned map. -/
theorem promptArguments_required_optional :
    (∀ (F J : Type) (P : Prims F J) (tool : Tool) (stdin : List String)
        (args : List (String × Value F J)) (out : List Ev) (rest : List String),
      promptArgumentsForTool P tool stdin = PyRes.ok args out rest →
      ∀ p, p ∈ tool.props.map Prod.fst → tool.required.contains p = true →
        (args.lookup p).isSome = true) ∧
    (∀ (F J : Type) (P : Prims F J) (label pn pt v : String) (stdin : List String),
      pyStrip v = "" →
      promptProp P label pn pt true (v :: stdin) =
        PyRes.withPre
          [Ev.print label, Ev.print "This field is required.",
           Ev.logWarn ("Required field " ++ pn ++ " left empty by user")]
          (promptProp P label pn pt true stdin)) ∧
    (∀ (F J : Type) (P : Prims F J) (label pn pt v : String) (stdin : List String),
      pyStrip v = "" →
      promptProp P label pn pt false (v :: stdin) =
        PyRes.ok none [Ev.print label] stdin) ∧
    (∀ (F J : Type) (P : Prims F J) (required : List String) (pn : String)
        (spec : PropSpec) (ps : List (String × PropSpec))
        (acc : List (String × Value F J)) (v : String) (stdin : List String)
        (args : List (String × Value F J)) (out : List Ev) (rest : List String),
      required.contains pn = false → pyStrip v = "" →
      (acc.lookup pn).isSome = false → pn ∉ ps.map Prod.fst →
      promptArgsGo P required ((pn, spec) :: ps) acc (v :: stdin) =
        PyRes.ok args out rest →
      args.lookup pn = none) := by
  refine ⟨?_, ?_, ?_, ?_⟩
  · intro F J P tool stdin args out rest h p hmem hreq
    by_cases hprops : tool.props = []
    · rw [hprops] at hmem
      simp at hmem
    · simp only [promptArgumentsForTool, if_neg hprops] at h
      cases hgo : promptArgsGo P tool.required tool.props [] stdin with
      | ok a3 o3 r3 =>
          rw [hgo] at h
          simp only [PyRes.withPre, PyRes.ok.injEq] at h
          exact h.1 ▸ promptArgsGo_required_covered P tool.required tool.props
            [] stdin a3 o3 r3 hgo p hmem hreq
      | exn e o =>
          rw [hgo] at h
          simp [PyRes.withPre] at h
  · intro F J P label pn pt v stdin hv
    simp [promptProp, hv]
  · intro F J P label pn pt v stdin hv
    simp [promptProp, hv]
  · intro F J P required pn spec ps acc v stdin args out rest hreqf hv hacc hps h
    have hred : promptProp P (buildLabel pn spec false) pn
        (spec.ptype.getD "string") false (v :: stdin) =
        PyRes.ok none [Ev.print (buildLabel pn spec false)] stdin := by
      simp [promptProp, hv]
    simp only [promptArgsGo, hreqf] at h
    rw [hred] at h
    dsimp only at h
    cases hrec : promptArgsGo P required ps acc stdin with
    | ok a3 o3 r3 =>
        rw [hrec] at h
        simp only [PyRes.withPre, PyRes.ok.injEq] at h
        cases hlk : args.lookup pn with
        | none => rfl
        | some w =>
            have hsome : (args.lookup pn).isSome = true := by rw [hlk]; rfl
            rcases promptArgsGo_lookup_origin P required ps acc stdin a3 o3 r3
              hrec pn (h.1 ▸ hsome) with h1 | h1
            · rw [h1] at hacc; cases hacc
            · exact absurd h1 hps
    | exn e o =>
        rw [hrec] at h
        simp [PyRes.withPre] at h

/-- Witness for C4: the echo tool with required property "msg" and input
"hi" completes with a value for "msg"; an optional property given empty
input ends at once with no value. -/
theorem promptArguments_required_optional_witness :
    (([("msg", Value.str "hi")] : List (String × Value Unit Unit)).lookup "msg").isSome
      = true ∧
    promptProp trivPrims "L: " "p" "string" false ("" :: []) =
      PyRes.ok (none : Option (Value Unit Unit)) [Ev.print "L: "] [] := by
  constructor
  · exact promptArguments_required_optional.1 Unit Unit trivPrims toolEcho ["hi"]
      [("msg", Value.str "hi")]
      [Ev.print "\nTool echo argument schema:",
       Ev.print "msg (string) [required]: ",
       Ev.logInfo "Collected arguments for tool echo"] [] (by rfl)
      "msg" (by decide) (by decide)
  · exact promptArguments_required_optional.2.2.1 Unit Unit trivPrims
      "L: " "p" "string" "" [] (by decide)

/-- C5: the value parser dispatches exactly on the declared type tag:
`integer` by integer parse, `number` by float parse, `boolean` by the
case-insensitive truthy and falsy token sets with an "enter true/false"
error otherwise, `array`/`object` by the JSON parser with the underlying
message carried in the error, any other tag verbatim as a string; and a
parse error is never accepted as a value — it re-prompts that single
property. -/
theorem parseSchemaValue_dispatch :
    ∀ (F J : Type) (P : Prims F J) (s : String),
      (∀ i, pyInt s = some i →
        parseSchemaValue P "integer" s = Except.ok (Value.int i)) ∧
      (pyInt s = none → ∃ m, parseSchemaValue P "integer" s = Except.error m) ∧
      (∀ f, P.pyFloat s = some f →
        parseSchemaValue P "number" s = Except.ok (Value.float f)) ∧
      (P.pyFloat s = none → ∃ m, parseSchemaValue P "number" s = Except.error m) ∧
      (pyLower s = "true" ∨ pyLower s = "1" ∨ pyLower s = "yes" ∨ pyLower s = "y" →
        parseSchemaValue P "boolean" s = Except.ok (Value.bool true)) ∧
      (pyLower s = "false" ∨ pyLower s = "0" ∨ pyLower s = "no" ∨ pyLower s = "n" →
        parseSchemaValue P "boolean" s = Except.ok (Value.bool false)) ∧
      (pyLower s ∉ (["true", "1", "yes", "y"] : List String) →
        pyLower s ∉ (["false", "0", "no", "n"] : List String) →
        parseSchemaValue P "boolean" s = Except.error "Please enter true/false.") ∧
      (∀ t, (t = "array" ∨ t = "object") → ∀ j, P.jsonLoads s = Except.ok j →
        parseSchemaValue P t s = Except.ok (Value.json j)) ∧
      (∀ t, (t = "array" ∨ t = "object") → ∀ m, P.jsonLoads s = Except.error m →
        parseSchemaValue P t s =
          Except.error ("Please enter valid JSON for " ++ t ++ ": " ++ m)) ∧
      (∀ t, t ≠ "integer" → t ≠ "number" → t ≠ "boolean" → t ≠ "array" →
        t ≠ "object" → parseSchemaValue P t s = Except.ok (Value.str s)) ∧
      (∀ (label pn t v : String) (req : Bool) (stdin : List String) (m : String),
        ¬ pyStrip v = "" → parseSchemaValue P t (pyStrip v) = Except.error m →
        promptProp P label pn t req (v :: stdin) =
          PyRes.withPre
            [Ev.print label, Ev.print m,
             Ev.logWarn ("Invalid value for " ++ pn ++ ": " ++ pyStrip v)]
            (promptProp P label pn t req stdin)) := by
  intro F J P s
  refine ⟨?_, ?_, ?_, ?_, ?_, ?_, ?_, ?_, ?_, ?_, ?_⟩
  · intro i h
    simp [parseSchemaValue, h]
  · intro h
    exact ⟨"invalid literal for int with base 10: " ++ s, by simp [parseSchemaValue, h]⟩
  · intro f h
    simp [parseSchemaValue, h]
  · intro h
    exact ⟨"could not convert string to float: " ++ s, by simp [parseSchemaValue, h]⟩
  · intro h
    rcases h with h | h | h | h <;> simp [parseSchemaValue, h]
  · intro h
    rcases h with h | h | h | h <;> simp [parseSchemaValue, h]
  · intro ht hf
    simp only [List.mem_cons, List.not_mem_nil, or_false, not_or] at ht hf
    obtain ⟨ht1, ht2, ht3, ht4⟩ := ht
    obtain ⟨hf1, hf2, hf3, hf4⟩ := hf
    simp [parseSchemaValue, ht1, ht2, ht3, ht4, hf1, hf2, hf3, hf4]
  · intro t htag j h
    rcases htag with h1 | h1 <;> subst h1 <;> simp [parseSchemaValue, h]
  · intro t htag m h
    rcases htag with h1 | h1 <;> subst h1 <;> simp [parseSchemaValue, h]
  · intro t h1 h2 h3 h4 h5
    simp [parseSchemaValue, h1, h2, h3, h4, h5]
  · intro label pn t v req stdin m hv hm
    simp [promptProp, hv, hm]

/-- Witness for C5: the truthy token "YES" parses as boolean true, a JSON
decode failure for an array property carries the underlying message, and an
unknown tag passes the text through verbatim. -/
theorem parseSchemaValue_dispatch_witness :
    parseSchemaValue trivPrims "boolean" "YES" = Except.ok (Value.bool true) ∧
    parseSchemaValue trivPrims "array" "x" =
      Except.error ("Please enter valid JSON for " ++ "array" ++ ": " ++ "Expecting value") ∧
    parseSchemaValue trivPrims "uuid" "abc" = Except.ok (Value.str "abc") := by
  refine ⟨?_, ?_, ?_⟩
  · exact (parseSchemaValue_dispatch Unit Unit trivPrims "YES").2.2.2.2.1
      (Or.inr (Or.inr (Or.inl (by decide))))
  · exact (parseSchemaValue_dispatch Unit Unit trivPrims "x").2.2.2.2.2.2.2.2.1
      "array" (Or.inl rfl) "Expecting value" (by rfl)
  · exact (parseSchemaValue_dispatch Unit Unit trivPrims "abc").2.2.2.2.2.2.2.2.2.1
      "uuid" (by decide) (by decide) (by decide) (by decide) (by decide)

/-- C6 (refutation): a client whose session object exists but whose
handshake never completed still issues the listing and returns the tools
without raising. -/
theorem listTools_issued_without_handshake :
    ({ ctx := true, ctxEntered := true, session := true, initialized := false }
        : ClientState).initialized = false ∧
    (listToolsM (Except.ok [toolEcho])
        { ctx := true, ctxEntered := true, session := true, initialized := false }).1 =
      Except.ok [toolEcho] ∧
    Ev.logInfo "Requesting tools/list" ∈
      (listToolsM (Except.ok [toolEcho])
        { ctx := true, ctxEntered := true, session := true, initialized := false }).2 := by
  refine ⟨rfl, rfl, ?_⟩
  decide

/-- C6 (amended): `list_tools` raises the runtime error exactly when the
session object has not been created; once the session is started the
listing request is issued even if the initialize handshake never completed,
and `list_tools_simple` propagates the same failure. -/
theorem listTools_session_check :
    ∀ (serverRes : Except String (List Tool)) (st : ClientState),
      (st.session = false →
        listToolsM serverRes st =
          (Except.error "RuntimeError: Session not started", []) ∧
        listToolsSimpleM serverRes st =
          (Except.error "RuntimeError: Session not started", [])) ∧
      (st.session = true →
        Ev.logInfo "Requesting tools/list" ∈ (listToolsM serverRes st).2) := by
  intro serverRes st
  constructor
  · intro h
    constructor <;> simp [listToolsM, listToolsSimpleM, h]
  · intro h
    cases serverRes <;> simp [listToolsM, h]

/-- Witness for C6 (amended): a never-entered client raises, an entered but
uninitialized client issues the request. -/
theorem listTools_session_check_witness :
    listToolsM (Except.ok [toolEcho]) initialClientState =
      (Except.error "RuntimeError: Session not started", []) ∧
    Ev.logInfo "Requesting tools/list" ∈
      (listToolsM (Except.ok [toolEcho])
        { ctx := true, ctxEntered := true, session := true, initialized := false }).2 := by
  constructor
  · exact ((listTools_session_check (Except.ok [toolEcho]) initialClientState).1 rfl).1
  · exact (listTools_session_check (Except.ok [toolEcho])
      { ctx := true, ctxEntered := true, session := true, initialized := false }).2 rfl

/-- C8 (refutation): when initialize fails, `run` stops with log records
only — no console print is emitted on this path. -/
theorem run_init_failure_no_console_print :
    runClient initFailEnv [] 5 = RunOut.finished initFailTrace ∧
    initFailTrace.all (fun ev => !(isPrint ev)) = true :=
  ⟨rfl, by decide⟩

/-- C8 (amended): a failure of initialize or of the initial listing is
fatal to the interactive run: `run` returns before the selection loop with
a detailed log entry naming the underlying cause, and emits only log
records — no console message — on this path. -/
theorem run_fatal_failures_log_and_stop :
    ∀ (F J : Type) (env : RunEnv F J) (stdin : List String) (fuel : Nat) (e : String),
      (env.initErr = some e →
        runClient env stdin fuel =
          RunOut.finished
            [Ev.logInfo "Initializing MCP session",
             Ev.logErr ("Initialize failed: " ++ e),
             Ev.logErr ("Failed to start interactive loop: " ++ e)]) ∧
      (env.initErr = none → env.toolsRes = Except.error e →
        runClient env stdin fuel =
          RunOut.finished
            [Ev.logInfo "Initializing MCP session",
             Ev.logInfo "MCP session successfully initialized",
             Ev.logInfo "Requesting tools/list",
             Ev.logErr ("tools/list failed: " ++ e),
             Ev.logErr ("Failed to start interactive loop: " ++ e)]) := by
  intro F J env stdin fuel e
  constructor
  · intro h
    simp [runClient, h]
  · intro h1 h2
    simp [runClient, h1, h2]

/-- Witness for C8 (amended) at the concrete failing environment. -/
theorem run_fatal_failures_log_and_stop_witness :
    runClient initFailEnv [] 5 = RunOut.finished initFailTrace :=
  (run_fatal_failures_log_and_stop Unit Unit initFailEnv [] 5 "boom").1 rfl

/-- C9: inside the interactive loop, an exception escaping
selection/prompting/invocation is logged and stops the loop (and the whole
loop run finishes there); after a completed invocation the stripped,
lowered answer stops the loop exactly when it is "n", "no" or empty, and
any other answer repeats the loop on the remaining input. -/
theorem loopStep_termination_spec :
    ∀ (F J : Type) (env : RunEnv F J) (tools : List Tool) (stdin : List String),
      (∀ (e : String) (out : List Ev), bodyRun env tools stdin = BodyOut.exn e out →
        loopStep env tools stdin =
          StepOut.stop (out ++ [Ev.logErr ("Error during interactive tool call: " ++ e)])) ∧
      (∀ (r : J) (out : List Ev) (a : String) (rest : List String),
        bodyRun env tools stdin = BodyOut.called r out (a :: rest) →
        (((∃ tr, loopStep env tools stdin = StepOut.stop tr) ↔
            (pyLower (pyStrip a) = "n" ∨ pyLower (pyStrip a) = "no" ∨
             pyLower (pyStrip a) = "")) ∧
         ((∃ tr, loopStep env tools stdin = StepOut.again tr rest) ↔
            ¬(pyLower (pyStrip a) = "n" ∨ pyLower (pyStrip a) = "no" ∨
              pyLower (pyStrip a) = "")))) ∧
      (∀ (e : String) (out : List Ev) (fuel : Nat) (acc : List Ev),
        bodyRun env tools stdin = BodyOut.exn e out →
        runLoop env tools (fuel + 1) stdin acc =
          RunOut.finished
            (acc ++ (out ++ [Ev.logErr ("Error during interactive tool call: " ++ e)]))) := by
  intro F J env tools stdin
  refine ⟨?_, ?_, ?_⟩
  · intro e out h
    simp [loopStep, h]
  · intro r out a rest h
    simp only [loopStep, h]
    by_cases hans : pyLower (pyStrip a) = "n" ∨ pyLower (pyStrip a) = "no" ∨
        pyLower (pyStrip a) = ""
    · rw [if_pos hans]
      constructor
      · constructor
        · intro _
          exact hans
        · intro _
          exact ⟨_, rfl⟩
      · constructor
        · rintro ⟨tr, htr⟩
          simp at htr
        · intro hno
          exact absurd hans hno
    · rw [if_neg hans]
      constructor
      · constructor
        · rintro ⟨tr, htr⟩
          simp at htr
        · intro hyes
          exact absurd hyes hans
      · constructor
        · intro _
          exact hans
        · intro _
          exact ⟨_, rfl⟩
  · intro e out fuel acc h
    simp [runLoop, loopStep, h]

/-- Witness for C9: with one callable tool, inputs "1" then "n" complete an
invocation and the answer "n" stops the loop. -/
theorem loopStep_termination_spec_witness :
    ∃ tr, loopStep demoRunEnv [toolPing] ["1", "n"] = StepOut.stop tr := by
  have h := (loopStep_termination_spec Unit Unit demoRunEnv [toolPing] ["1", "n"]).2.1
    () demoBodyOut "n" [] (by rfl)
  exact h.1.mpr (Or.inl (by decide))

/-- The backslash-stripping pass leaves no backslash behind. -/
theorem stripBackslashes_all (cs : List Char) :
    (stripBackslashes cs).all (fun c => c != '\\') = true := by
  simp only [stripBackslashes, List.all_eq_true, List.mem_filter]
  intro a ha
  exact ha.2

/-- C10: on success the interactive `call_tool` prints the raw rendering
and then the readability rendering, which is exactly the raw rendering with
each literal backslash-n pair turned into a newline and every remaining
backslash removed; the returned value is the raw result itself, unaffected
by the cosmetic transform. -/
theorem callTool_readability :
    ∀ (F J : Type) (env : CallEnv F J) (tool : Tool)
      (args : List (String × Value F J)) (r : J),
      env.callRes tool.name args = Except.ok r →
      callToolM env tool args =
        (Except.ok r,
         [Ev.logInfo ("Calling tool " ++ tool.name),
          Ev.print ("\nCalling tool " ++ tool.name ++ " with arguments:"),
          Ev.print (env.dumpsArgs args),
          Ev.print "\n[TOOL RESULT (raw JSON)]", Ev.print (env.dumps r),
          Ev.print "\n[FINAL RESULT (rendered for readability, JSON formatting may be invalid)]",
          Ev.print (readabilityRender (env.dumps r))]) ∧
      readabilityRender (env.dumps r) =
        String.mk (stripBackslashes (unescapeNewlines (env.dumps r).data)) ∧
      (readabilityRender (env.dumps r)).data.all (fun c => c != '\\') = true := by
  intro F J env tool args r h
  refine ⟨?_, rfl, ?_⟩
  · simp [callToolM, h]
  · exact stripBackslashes_all _

/-- Witness for C10: a result whose rendering contains a literal
backslash-n pair is returned unmodified while its readability rendering has
a real newline and no backslash. -/
theorem callTool_readability_witness :
    (callToolM demoCallEnv toolPing []).1 =
      Except.ok "\x7b \"text\": \"line1\\nline2\" \x7d" ∧
    readabilityRender "\x7b \"text\": \"line1\\nline2\" \x7d" =
      "\x7b \"text\": \"line1\nline2\" \x7d" := by
  have h := callTool_readability Unit String demoCallEnv toolPing []
    "\x7b \"text\": \"line1\\nline2\" \x7d" rfl
  constructor
  · rw [h.1]
  · decide

end MCPClient
